import Mathlib

/-!
Shallow embedding of `mp3extra` (`src/main.go`): a CLI tool that embeds a
cover image and/or lyrics into an MP3 file's ID3v2 tag, optionally fetching
them from two remote HTTP services (lrclib.net for lyrics, iTunes for cover
art).  External effects (HTTP transport, JSON decoding, the filesystem, the
id3v2 library's binary tag layout) are abstracted as parameters of an
environment record; the control flow, string manipulation, frame mutation
and error propagation of `main.go` are embedded faithfully.
-/

namespace Mp3extra

/-- ID3v2 text encodings used by the program (`id3v2.EncodingISO`,
`id3v2.EncodingUTF16`, `id3v2.EncodingUTF8`). -/
inductive Encoding where
  | ISO
  | UTF16
  | UTF8
deriving DecidableEq, Repr

/-- An ID3v2 frame, covering the frame kinds that `main.go` reads or writes:
text frames, comment frames (`id3v2.CommentFrame`), attached-picture frames
(`id3v2.PictureFrame`, with the picture as raw bytes, each byte a `Nat`),
and unsynchronised-lyrics frames (`id3v2.UnsynchronisedLyricsFrame`).
`other` stands for any further frame kind the library may return
(hit only by the `default` case of the dry-run type switch). -/
inductive Frame where
  | text (text : String)
  | comment (encoding : Encoding) (language description text : String)
  | picture (encoding : Encoding) (mimeType : String) (pictureType : Nat)
      (description : String) (picture : List Nat)
  | uslt (encoding : Encoding) (language contentDescriptor lyrics : String)
  | other (repr : String)
deriving DecidableEq, Repr

/-- The mutable ID3v2 tag container of one file (`id3v2.Tag`).  Frames are an
association list from frame ID (e.g. "COMM") to frame, in insertion order;
`artist`/`title` model `tag.Artist()` / `tag.Title()`;
`defaultEncoding` models `tag.SetDefaultEncoding`. -/
structure Tag where
  artist : String
  title : String
  defaultEncoding : Encoding
  frames : List (String × Frame)
deriving DecidableEq, Repr

/-- Model of `tag.GetFrames(id)`: all frames stored under a frame ID, in order. -/
def Tag.getFrames (t : Tag) (id : String) : List Frame :=
  (t.frames.filter (fun p => p.1 == id)).map (fun p => p.2)

/-- Model of `tag.DeleteFrames(id)`: remove every frame stored under a frame ID. -/
def Tag.deleteFrames (t : Tag) (id : String) : Tag :=
  { t with frames := t.frames.filter (fun p => p.1 != id) }

/-- Model of `tag.AddCommentFrame`, `AddAttachedPicture` and other frame adders:
append one frame under a frame ID. -/
def Tag.addFrame (t : Tag) (id : String) (f : Frame) : Tag :=
  { t with frames := t.frames ++ [(id, f)] }

/-- The frame ID `tag.CommonID("Comments")` resolves to. -/
def commID : String := "COMM"

/-- The frame ID `tag.CommonID("Attached picture")` resolves to. -/
def apicID : String := "APIC"

/-- The frame ID `tag.CommonID("Unsynchronised lyrics/text transcription")` resolves to. -/
def usltID : String := "USLT"

/-- One record of the lrclib.net search response (`lrclibResult` in
`main.go`).  The unused `duration` float field is omitted from the model;
no code path reads it. -/
structure LrclibResult where
  id : Int
  name : String
  trackName : String
  artistName : String
  albumName : String
  instrumental : Bool
  plainLyrics : String
  syncedLyrics : String
deriving DecidableEq, Repr

/-- The iTunes search response (`itunesResult` in `main.go`): a list of
records each carrying an `artworkUrl100` string. -/
structure ItunesEntry where
  artworkUrl100 : String
deriving DecidableEq, Repr

structure ItunesResult where
  results : List ItunesEntry
deriving DecidableEq, Repr

/-- The error kinds `downloadLrc` and `fetchAlbumArtURL` can return:
a propagated HTTP transport error (`http.Get` failing), a propagated JSON
decoding error, or the not-found error the functions build themselves with
`fmt.Errorf`. -/
inductive FetchErr where
  | netErr (msg : String)
  | decodeErr (msg : String)
  | notFound (msg : String)
deriving DecidableEq, Repr

/-- Holds exactly on the constructed not-found error. -/
def isNotFoundResult {α : Type} : Except FetchErr α → Bool
  | .error (.notFound _) => true
  | _ => false

/-- An HTTP response as the program consumes it: the body bytes (each byte a
`Nat`) and the declared `content-type` header. -/
structure HttpResp where
  body : List Nat
  contentType : String
deriving DecidableEq, Repr

/-- Byte escaping of Go's `url.QueryEscape`: space becomes `+`, ASCII
letters, digits and `-` `_` `.` `~` stay, every other byte becomes `%XX`
with uppercase hex. -/
def escapeByte (b : Nat) : List Char :=
  if b == 32 then [Char.ofNat 43]
  else if (65 ≤ b && b ≤ 90) || (97 ≤ b && b ≤ 122) || (48 ≤ b && b ≤ 57)
      || b == 45 || b == 95 || b == 46 || b == 126 then
    [Char.ofNat b]
  else
    [Char.ofNat 37,
     (['0','1','2','3','4','5','6','7','8','9','A','B','C','D','E','F']).getD (b / 16) '0',
     (['0','1','2','3','4','5','6','7','8','9','A','B','C','D','E','F']).getD (b % 16) '0']

/-- The UTF-8 encoding of one character, as a list of byte values — the
bytes Go's `[]byte(s)` view of a string consists of. -/
def utf8Bytes (c : Char) : List Nat :=
  let n := c.toNat
  if n < 128 then [n]
  else if n < 2048 then [192 + n / 64, 128 + n % 64]
  else if n < 65536 then [224 + n / 4096, 128 + (n / 64) % 64, 128 + n % 64]
  else [240 + n / 262144, 128 + (n / 4096) % 64, 128 + (n / 64) % 64, 128 + n % 64]

/-- Go's `url.QueryEscape`, applied to the UTF-8 bytes of the string. -/
def queryEscape (s : String) : String :=
  String.mk ((((s.toList.map utf8Bytes).flatten).map escapeByte).flatten)

/-- The lrclib.net search URL built by `downloadLrc`. -/
def lrclibUrl (artist title : String) : String :=
  "https://lrclib.net/api/search?q=" ++ queryEscape (artist ++ " " ++ title)

/-- Model of `coverArtUrl` in `main.go`: the iTunes search URL. -/
def coverArtUrl (artist title : String) : String :=
  "https://itunes.apple.com/search?term=" ++ queryEscape (artist ++ " " ++ title)
    ++ "&media=music&limit=1"

/-- Replace the first occurrence of `old` in a character list with `new`,
leaving everything else unchanged; the list is returned unchanged when `old`
does not occur. -/
def replaceFirstAux (old new : List Char) : List Char → List Char
  | [] => []
  | c :: rest =>
      if List.isPrefixOf old (c :: rest) then
        new ++ List.drop old.length (c :: rest)
      else
        c :: replaceFirstAux old new rest

/-- Go's `strings.Replace(s, old, new, 1)` for non-empty `old` (the call in
`fetchAlbumArtURL` uses the literal "100x100").  Go replaces at the byte
level; since the patterns here are pure ASCII and UTF-8 continuation bytes
never coincide with ASCII bytes, character-level replacement agrees with
byte-level replacement for these patterns. -/
def stringReplaceOnce (s old new : String) : String :=
  String.mk (replaceFirstAux old.toList new.toList s.toList)

/-- The linear scan of `downloadLrc` over the decoded result list: return
the `syncedLyrics` of the first record whose `artistName` and `trackName`
equal the query, else the constructed not-found error. -/
def downloadLrcScan (artist title : String) : List LrclibResult → Except FetchErr String
  | [] => .error (.notFound ("Lyrics not found for " ++ artist ++ " - " ++ title))
  | r :: rest =>
      if r.artistName == artist && r.trackName == title then .ok r.syncedLyrics
      else downloadLrcScan artist title rest

/-- Model of `downloadLrc` in `main.go`, with the HTTP transport and the JSON decoder
abstracted as parameters.  Returns the result together with the list of URLs
requested, in order. -/
def downloadLrc (artist title : String)
    (httpGet : String → Except String HttpResp)
    (decodeLrclib : List Nat → Except String (List LrclibResult)) :
    Except FetchErr String × List String :=
  let u := lrclibUrl artist title
  match httpGet u with
  | .error e => (.error (.netErr e), [u])
  | .ok resp =>
    match decodeLrclib resp.body with
    | .error e => (.error (.decodeErr e), [u])
    | .ok results => (downloadLrcScan artist title results, [u])

/-- Model of `fetchAlbumArtURL` in `main.go`: GET the search URL, decode the iTunes
JSON, fail with not-found on an empty result list, otherwise GET the first
result's `artworkUrl100` with the first "100x100" replaced by "600x600" and
return the raw body bytes with the declared content type.  The HTTP
transport (which also covers `io.ReadAll` of the body) and the JSON decoder
are abstracted as parameters; the second component is the list of URLs
requested, in order. -/
def fetchAlbumArtURL (u : String)
    (httpGet : String → Except String HttpResp)
    (decodeItunes : List Nat → Except String ItunesResult) :
    Except FetchErr (List Nat × String) × List String :=
  match httpGet u with
  | .error e => (.error (.netErr e), [u])
  | .ok resp =>
    match decodeItunes resp.body with
    | .error e => (.error (.decodeErr e), [u])
    | .ok result =>
      match result.results with
      | [] => (.error (.notFound "Album art not found"), [u])
      | r :: _ =>
        let u2 := stringReplaceOnce r.artworkUrl100 "100x100" "600x600"
        match httpGet u2 with
        | .error e => (.error (.netErr e), [u, u2])
        | .ok resp2 => (.ok (resp2.body, resp2.contentType), [u, u2])

/-- The parsed command-line flags of `main` and the first positional
argument (`flag.Arg(0)`, which is the empty string when missing). -/
structure Args where
  embedImage : String
  embedLyrics : String
  embedLang : String
  dryRun : Bool
  mp3File : String
deriving DecidableEq, Repr

/-- The external world `main` interacts with: opening the tag file, HTTP
GET, reading local files, the two JSON decoders, saving the tag, Go's
`http.DetectContentType` sniffer (library code, abstracted as an arbitrary
pure function on the bytes) and Go's `string(b)` byte-to-string conversion
(likewise abstracted). -/
structure Env where
  openTag : Except String Tag
  httpGet : String → Except String HttpResp
  readFile : String → Except String (List Nat)
  decodeLrclib : List Nat → Except String (List LrclibResult)
  decodeItunes : List Nat → Except String ItunesResult
  saveResult : Except String Unit
  detectContentType : List Nat → String
  goStr : List Nat → String

/-- Observable effects of one run, in program order. -/
inductive Event where
  | printUsage
  | fileOpen (path : String)
  | printFrames
  | netRequest (url : String)
  | fileRead (path : String)
  | save (path : String)
  | print (s : String)
deriving DecidableEq, Repr

/-- The distinct `log.Fatal` call sites of `main`, each keeping the error it
reports. -/
inductive FatalErr where
  | openErr (msg : String)
  | fetchArtErr (e : FetchErr)
  | readImageErr (msg : String)
  | lyricsErr (e : FetchErr)
  | readLyricsErr (msg : String)
  | saveErr (msg : String)
deriving DecidableEq, Repr

/-- How the process ends: `usageExit` is `flag.Usage(); os.Exit(1)`,
`fatal` is one of the `log.Fatal` call sites, `panicked` is the Go type
assertion `comments[0].(id3v2.CommentFrame)` failing, `ok` is a normal
exit. -/
inductive Outcome where
  | usageExit
  | fatal (e : FatalErr)
  | panicked
  | ok
deriving DecidableEq, Repr

/-- Project a frame as a comment frame; `none` models the Go type assertion
`f.(id3v2.CommentFrame)` panicking on any other frame kind. -/
def Frame.asComment : Frame → Option (Encoding × String × String × String)
  | .comment e l d t => some (e, l, d, t)
  | _ => none

/-- The comment-normalization step of `main`: if at least one frame is
stored under "COMM", build a new comment frame with `EncodingISO`, the
`-lang` flag value as language, and the first stored frame's description
and text; delete all "COMM" frames and add the new one.  `none` models the
type assertion on the first frame panicking. -/
def normalizeCommentStep (embedLang : String) (t : Tag) : Option Tag :=
  match t.getFrames commID with
  | [] => some t
  | f :: _ =>
    match f.asComment with
    | none => none
    | some (_, _, d, x) =>
        some ((t.deleteFrames commID).addFrame commID (.comment .ISO embedLang d x))

/-- The image block of `main` (`if embedImage != "" { ... }`): fetch from
iTunes when the image flag is "auto" (skipped in dry run, which only prints
the search URL), otherwise read the flag value as a local file; on success
replace the attached-picture frame. -/
def imageStep (args : Args) (env : Env) (t : Tag) :
    Except FatalErr Tag × List Event :=
  if args.embedImage == "" then (.ok t, [])
  else if args.embedImage == "auto" then
    let u := coverArtUrl t.artist t.title
    if args.dryRun then (.ok t, [.print ("Covert art: " ++ u)])
    else
      let fr := fetchAlbumArtURL u env.httpGet env.decodeItunes
      match fr.1 with
      | .error e => (.error (.fetchArtErr e), fr.2.map Event.netRequest)
      | .ok (b, ct) =>
          (.ok ((t.deleteFrames apicID).addFrame apicID
              (.picture .ISO ct 3 "Cover Art" b)),
           fr.2.map Event.netRequest)
  else
    if args.dryRun then (.ok t, [.print ("Covert art: " ++ args.embedImage)])
    else
      match env.readFile args.embedImage with
      | .error e => (.error (.readImageErr e), [.fileRead args.embedImage])
      | .ok b =>
          (.ok ((t.deleteFrames apicID).addFrame apicID
              (.picture .ISO (env.detectContentType b) 3 "Cover Art" b)),
           [.fileRead args.embedImage])

/-- The lyrics block of `main` (`if embedLyrics != "" { ... }`).  NOTE: the
source guards the automatic fetch on `embedImage == "auto"` — the image
flag, not the lyrics flag — and this model reproduces that guard exactly.
When the guard holds, `downloadLrc` runs before the dry-run check; a dry
run then prints the lyrics, a real run replaces the USLT frame.  When the
guard fails, the lyrics flag value is read as a local file path (skipped in
dry run, which only prints the flag value). -/
def lyricsStep (args : Args) (env : Env) (t : Tag) :
    Except FatalErr Tag × List Event :=
  if args.embedLyrics == "" then (.ok t, [])
  else if args.embedImage == "auto" then
    let dl := downloadLrc t.artist t.title env.httpGet env.decodeLrclib
    match dl.1 with
    | .error e => (.error (.lyricsErr e), dl.2.map Event.netRequest)
    | .ok lyrics =>
        if args.dryRun then (.ok t, dl.2.map Event.netRequest ++ [.print lyrics])
        else
          (.ok ((t.deleteFrames usltID).addFrame usltID
              (.uslt .UTF8 args.embedLang "Lyrics" lyrics)),
           dl.2.map Event.netRequest)
  else
    if args.dryRun then (.ok t, [.print ("Lyrics text: " ++ args.embedLyrics)])
    else
      match env.readFile args.embedLyrics with
      | .error e => (.error (.readLyricsErr e), [.fileRead args.embedLyrics])
      | .ok b =>
          (.ok ((t.deleteFrames usltID).addFrame usltID
              (.uslt .UTF8 args.embedLang "Lyrics" (env.goStr b))),
           [.fileRead args.embedLyrics])

/-- Model of `main` in `main.go`: usage check, open tag, optional dry-run frame dump,
default encoding, comment normalization, image block, lyrics block, save
unless in dry run.  Returns the outcome and the effect trace in program
order. -/
def runMain (args : Args) (env : Env) : Outcome × List Event :=
  if args.mp3File == "" then (.usageExit, [.printUsage])
  else
    match env.openTag with
    | .error e => (.fatal (.openErr e), [.fileOpen args.mp3File])
    | .ok tag0 =>
      let ev0 : List Event :=
        [.fileOpen args.mp3File] ++ (if args.dryRun then [.printFrames] else [])
      let tag1 := { tag0 with defaultEncoding := .UTF16 }
      match normalizeCommentStep args.embedLang tag1 with
      | none => (.panicked, ev0)
      | some tag2 =>
        let ir := imageStep args env tag2
        match ir.1 with
        | .error e => (.fatal e, ev0 ++ ir.2)
        | .ok tag3 =>
          let lr := lyricsStep args env tag3
          match lr.1 with
          | .error e => (.fatal e, ev0 ++ ir.2 ++ lr.2)
          | .ok _ =>
            if args.dryRun then (.ok, ev0 ++ ir.2 ++ lr.2)
            else
              match env.saveResult with
              | .error e =>
                  (.fatal (.saveErr e), ev0 ++ ir.2 ++ lr.2 ++ [.save args.mp3File])
              | .ok _ =>
                  (.ok, ev0 ++ ir.2 ++ lr.2 ++
                    [.save args.mp3File,
                     .print ("Image embedded successfully in " ++ args.mp3File)])

/-- The network requests of a trace, in order. -/
def netRequests (evs : List Event) : List String :=
  evs.filterMap (fun e => match e with | .netRequest u => some u | _ => none)

/-- Holds on a save event. -/
def isSave : Event → Bool
  | .save _ => true
  | _ => false

/-- Holds on any file-system or network event. -/
def isIOEvent : Event → Bool
  | .fileOpen _ => true
  | .fileRead _ => true
  | .save _ => true
  | .netRequest _ => true
  | _ => false

/-- The number of save events of a trace. -/
def countSaves (evs : List Event) : Nat :=
  (evs.filter isSave).length

/-! ### Lemmas about the tag container -/

theorem getFrames_delete_add_self (t : Tag) (id : String) (f : Frame) :
    ((t.deleteFrames id).addFrame id f).getFrames id = [f] := by
  unfold Tag.getFrames Tag.deleteFrames Tag.addFrame
  simp only [List.filter_append, List.filter_filter]
  simp

/-! ### C3 and C9: comment-frame normalization -/

/-- A tag whose single comment frame carries language "eng", distinct from
the "jpn" language flag. -/
def tagC3 : Tag :=
  { artist := "A", title := "T", defaultEncoding := .UTF16,
    frames := [(commID, .comment .UTF16 "eng" "d" "x")] }

/-- C3 counterexample: normalizing `tagC3` with language flag "jpn" yields a
comment frame whose language is "jpn", while the original frame's language
was "eng" — the normalization changes the language field, not only the
encoding field, so the claim as stated is false. -/
theorem c3_language_not_preserved :
    normalizeCommentStep "jpn" tagC3 =
      some { artist := "A", title := "T", defaultEncoding := .UTF16,
             frames := [(commID, Frame.comment .ISO "jpn" "d" "x")] } ∧
    tagC3.getFrames commID = [Frame.comment .UTF16 "eng" "d" "x"] ∧
    ("jpn" : String) ≠ "eng" := by
  refine ⟨by decide, by decide, by decide⟩

/-- C3 (amended): for every tag whose first "COMM" frame is a comment frame,
the normalization step produces a tag whose "COMM" frames are exactly one
comment frame keeping the original's description and text, with the
encoding set to ISO-8859-1 and the language set to the language-flag
value. -/
theorem c3_normalize_preserves_description_text (lang : String) (t : Tag)
    (e : Encoding) (l d x : String) (rest : List Frame)
    (h : t.getFrames commID = Frame.comment e l d x :: rest) :
    ∃ t2, normalizeCommentStep lang t = some t2 ∧
      t2.getFrames commID = [Frame.comment .ISO lang d x] := by
  refine ⟨(t.deleteFrames commID).addFrame commID (.comment .ISO lang d x), ?_, ?_⟩
  · unfold normalizeCommentStep
    rw [h]
    rfl
  · exact getFrames_delete_add_self t commID _

theorem c3_normalize_witness :
    ∃ t2, normalizeCommentStep "jpn" tagC3 = some t2 ∧
      t2.getFrames commID = [Frame.comment .ISO "jpn" "d" "x"] :=
  c3_normalize_preserves_description_text "jpn" tagC3 .UTF16 "eng" "d" "x" []
    (by decide)

/-- A tag with three comment frames, used to witness that the frames after
the first are discarded. -/
def tagC9 : Tag :=
  { artist := "A", title := "T", defaultEncoding := .UTF16,
    frames := [(commID, .comment .UTF16 "eng" "d1" "x1"),
               (commID, .comment .UTF8 "eng" "d2" "x2"),
               (commID, .comment .ISO "eng" "d3" "x3")] }

/-- C9: when a tag holds more than one comment frame, normalization deletes
all of them and re-adds exactly one frame built from the first: afterwards
there is exactly one "COMM" frame, built from the first original frame's
description and text, and every comment frame after the first has been
discarded. -/
theorem c9_extra_comment_frames_discarded (lang : String) (t : Tag)
    (e : Encoding) (l d x : String) (rest : List Frame)
    (h : t.getFrames commID = Frame.comment e l d x :: rest)
    (_hrest : rest ≠ []) :
    ∃ t2, normalizeCommentStep lang t = some t2 ∧
      (t2.getFrames commID).length = 1 ∧
      t2.getFrames commID = [Frame.comment .ISO lang d x] := by
  refine ⟨(t.deleteFrames commID).addFrame commID (.comment .ISO lang d x), ?_, ?_, ?_⟩
  · unfold normalizeCommentStep
    rw [h]
    rfl
  · rw [getFrames_delete_add_self]
    rfl
  · exact getFrames_delete_add_self t commID _

theorem c9_witness :
    ∃ t2, normalizeCommentStep "jpn" tagC9 = some t2 ∧
      (t2.getFrames commID).length = 1 ∧
      t2.getFrames commID = [Frame.comment .ISO "jpn" "d1" "x1"] :=
  c9_extra_comment_frames_discarded "jpn" tagC9 .UTF16 "eng" "d1" "x1"
    [.comment .UTF8 "eng" "d2" "x2", .comment .ISO "eng" "d3" "x3"]
    (by decide) (by decide)

/-! ### Lemmas about the lyrics scan -/

theorem downloadLrcScan_first_match (artist title : String)
    (pre post : List LrclibResult) (r : LrclibResult)
    (hpre : ∀ q ∈ pre, ¬(q.artistName = artist ∧ q.trackName = title))
    (ha : r.artistName = artist) (ht : r.trackName = title) :
    downloadLrcScan artist title (pre ++ r :: post) = .ok r.syncedLyrics := by
  induction pre with
  | nil =>
      simp only [List.nil_append, downloadLrcScan]
      rw [if_pos]
      simp [ha, ht]
  | cons q qs ih =>
      have hb : ¬((q.artistName == artist && q.trackName == title) = true) := by
        simp only [Bool.and_eq_true, beq_iff_eq]
        exact hpre q (List.mem_cons_self q qs)
      simp only [List.cons_append, downloadLrcScan, if_neg hb]
      exact ih (fun p hp => hpre p (List.mem_cons_of_mem _ hp))

theorem downloadLrcScan_no_match (artist title : String)
    (results : List LrclibResult)
    (h : ∀ q ∈ results, ¬(q.artistName = artist ∧ q.trackName = title)) :
    downloadLrcScan artist title results =
      .error (.notFound ("Lyrics not found for " ++ artist ++ " - " ++ title)) := by
  induction results with
  | nil => rfl
  | cons q qs ih =>
      have hb : ¬((q.artistName == artist && q.trackName == title) = true) := by
        simp only [Bool.and_eq_true, beq_iff_eq]
        exact h q (List.mem_cons_self q qs)
      simp only [downloadLrcScan, if_neg hb]
      exact ih (fun p hp => h p (List.mem_cons_of_mem _ hp))

/-! ### C5: first exact match wins, otherwise not-found -/

/-- C5: once the response has been decoded into a result list, the lyrics
fetch returns the synced-lyrics field of the first record whose artist name
and track name are exactly (propositionally, hence case-sensitively and
without any trimming) the queried artist and title; when no record matches
both fields, it returns the constructed not-found error. -/
theorem c5_first_exact_match (artist title : String)
    (httpGet : String → Except String HttpResp)
    (decodeLrclib : List Nat → Except String (List LrclibResult))
    (resp : HttpResp) (results pre post : List LrclibResult) (r : LrclibResult)
    (hget : httpGet (lrclibUrl artist title) = .ok resp)
    (hdec : decodeLrclib resp.body = .ok results) :
    (results = pre ++ r :: post →
      (∀ q ∈ pre, ¬(q.artistName = artist ∧ q.trackName = title)) →
      r.artistName = artist → r.trackName = title →
      (downloadLrc artist title httpGet decodeLrclib).1 = .ok r.syncedLyrics) ∧
    ((∀ q ∈ results, ¬(q.artistName = artist ∧ q.trackName = title)) →
      (downloadLrc artist title httpGet decodeLrclib).1 =
        .error (.notFound ("Lyrics not found for " ++ artist ++ " - " ++ title))) := by
  unfold downloadLrc
  dsimp only
  rw [hget]
  dsimp only
  rw [hdec]
  constructor
  · intro hsplit hpre ha ht
    rw [hsplit]
    exact downloadLrcScan_first_match artist title pre post r hpre ha ht
  · intro hnone
    exact downloadLrcScan_no_match artist title results hnone

/-- A fixed decoded lrclib result list: two near misses (wrong case, extra
whitespace), then the matching record, then a second matching record with
different lyrics. -/
def lrcRecord (artist title lyr : String) : LrclibResult :=
  { id := 1, name := title, trackName := title, artistName := artist,
    albumName := "", instrumental := false, plainLyrics := "",
    syncedLyrics := lyr }

def lrcListC5 : List LrclibResult :=
  [lrcRecord "a" "T" "wrongCase", lrcRecord "A" "T " "wrongSpace",
   lrcRecord "A" "T" "L1", lrcRecord "A" "T" "L2"]

def respJson : HttpResp := { body := [123], contentType := "application/json" }

def getOkC5 : String → Except String HttpResp := fun _ => .ok respJson

def decOkC5 : List Nat → Except String (List LrclibResult) := fun _ => .ok lrcListC5

theorem c5_witness :
    (downloadLrc "A" "T" getOkC5 decOkC5).1 = .ok "L1" ∧
    (downloadLrc "A" "T2" getOkC5 decOkC5).1 =
      .error (.notFound "Lyrics not found for A - T2") := by
  constructor
  · exact (c5_first_exact_match "A" "T" getOkC5 decOkC5 respJson lrcListC5
      [lrcRecord "a" "T" "wrongCase", lrcRecord "A" "T " "wrongSpace"]
      [lrcRecord "A" "T" "L2"] (lrcRecord "A" "T" "L1") rfl rfl).1
      (by decide) (by decide) (by decide) (by decide)
  · exact (c5_first_exact_match "A" "T2" getOkC5 decOkC5 respJson lrcListC5
      [] [] (lrcRecord "A" "T" "L1") rfl rfl).2 (by decide)

/-! ### C7: the three failure modes are distinct error kinds, not one -/

def getNetDown : String → Except String HttpResp :=
  fun _ => .error "dial tcp: network is unreachable"

def decBad : List Nat → Except String (List LrclibResult) :=
  fun _ => .error "invalid character"

/-- C7 counterexample: when the HTTP request fails, `downloadLrc` returns
the propagated network error, and when the JSON decoding fails it returns
the propagated decode error; neither is the not-found error, so the three
failure modes do not all surface as the NotFound condition. -/
theorem c7_distinct_error_kinds_counterexample :
    (downloadLrc "A" "T" getNetDown decOkC5).1 =
      .error (.netErr "dial tcp: network is unreachable") ∧
    isNotFoundResult (downloadLrc "A" "T" getNetDown decOkC5).1 = false ∧
    (downloadLrc "A" "T" getOkC5 decBad).1 = .error (.decodeErr "invalid character") ∧
    isNotFoundResult (downloadLrc "A" "T" getOkC5 decBad).1 = false ∧
    isNotFoundResult (downloadLrc "A" "T2" getOkC5 decOkC5).1 = true := by
  refine ⟨rfl, rfl, rfl, rfl, rfl⟩

/-- C7 (amended): the lyrics fetch fails in each of the three cases, but
with three distinct error kinds: a failing HTTP request surfaces the
propagated network error, a failing JSON decode surfaces the propagated
decode error, and only the no-match case yields the constructed not-found
error. -/
theorem c7_three_failure_modes (artist title : String)
    (httpGet : String → Except String HttpResp)
    (decodeLrclib : List Nat → Except String (List LrclibResult)) :
    (∀ m, httpGet (lrclibUrl artist title) = .error m →
      (downloadLrc artist title httpGet decodeLrclib).1 = .error (.netErr m)) ∧
    (∀ resp m, httpGet (lrclibUrl artist title) = .ok resp →
      decodeLrclib resp.body = .error m →
      (downloadLrc artist title httpGet decodeLrclib).1 = .error (.decodeErr m)) ∧
    (∀ resp results, httpGet (lrclibUrl artist title) = .ok resp →
      decodeLrclib resp.body = .ok results →
      (∀ q ∈ results, ¬(q.artistName = artist ∧ q.trackName = title)) →
      (downloadLrc artist title httpGet decodeLrclib).1 =
        .error (.notFound ("Lyrics not found for " ++ artist ++ " - " ++ title))) := by
  refine ⟨?_, ?_, ?_⟩
  · intro m hm
    unfold downloadLrc
    dsimp only
    rw [hm]
  · intro resp m hok hm
    unfold downloadLrc
    dsimp only
    rw [hok]
    dsimp only
    rw [hm]
  · intro resp results hok hdec hnone
    unfold downloadLrc
    dsimp only
    rw [hok]
    dsimp only
    rw [hdec]
    exact downloadLrcScan_no_match artist title results hnone

theorem c7_witness :
    (downloadLrc "A" "T" getNetDown decOkC5).1 =
      .error (.netErr "dial tcp: network is unreachable") ∧
    (downloadLrc "A" "T" getOkC5 decBad).1 =
      .error (.decodeErr "invalid character") ∧
    (downloadLrc "A" "T2" getOkC5 decOkC5).1 =
      .error (.notFound "Lyrics not found for A - T2") := by
  refine ⟨?_, ?_, ?_⟩
  · exact (c7_three_failure_modes "A" "T" getNetDown decOkC5).1
      "dial tcp: network is unreachable" rfl
  · exact (c7_three_failure_modes "A" "T" getOkC5 decBad).2.1
      respJson "invalid character" rfl rfl
  · exact (c7_three_failure_modes "A" "T2" getOkC5 decOkC5).2.2
      respJson lrcListC5 rfl rfl (by decide)

/-! ### C6: the second artwork request targets the 600x600 variant -/

theorem replaceFirstAux_first_occurrence (old new b : List Char) (ho : old ≠ []) :
    ∀ a : List Char,
    (∀ i, i < a.length →
      List.isPrefixOf old ((a ++ old ++ b).drop i) = false) →
    replaceFirstAux old new (a ++ old ++ b) = a ++ new ++ b := by
  intro a
  induction a with
  | nil =>
      intro _
      cases old with
      | nil => exact absurd rfl ho
      | cons o os =>
          have hp : List.isPrefixOf (o :: os) (o :: (os ++ b)) = true := by
            have hq := List.isPrefixOf_iff_prefix.mpr (List.prefix_append (o :: os) b)
            simp only [List.cons_append] at hq
            exact hq
          show replaceFirstAux (o :: os) new (o :: (os ++ b)) = new ++ b
          unfold replaceFirstAux
          rw [if_pos hp]
          show new ++ List.drop os.length (os ++ b) = new ++ b
          rw [List.drop_left]
  | cons c a2 ih =>
      intro h
      have h1 := h 0 (Nat.succ_pos _)
      simp only [List.drop_zero, List.cons_append] at h1
      have hneg : ¬(List.isPrefixOf old (c :: (a2 ++ old ++ b)) = true) := by
        intro hcontra
        rw [hcontra] at h1
        exact Bool.noConfusion h1
      show replaceFirstAux old new (c :: (a2 ++ old ++ b)) = c :: (a2 ++ new ++ b)
      unfold replaceFirstAux
      rw [if_neg hneg]
      rw [ih (fun i hi => by
        have h2 := h (i + 1) (by simpa using Nat.succ_lt_succ hi)
        simpa using h2)]

/-- C6: when the first artwork request succeeds and decodes to a non-empty
result list whose first URL decomposes as `a ++ "100x100" ++ b` with the
occurrence at `a` being the first one, the fetch issues exactly two
requests, the second targeting `a ++ "600x600" ++ b` (the same URL with
only that first occurrence substituted, character-for-character identical
elsewhere), and it returns the second response's raw body bytes together
with its declared content type. -/
theorem c6_second_request_is_600x600
    (httpGet : String → Except String HttpResp)
    (decodeItunes : List Nat → Except String ItunesResult)
    (u : String) (resp resp2 : HttpResp)
    (entry : ItunesEntry) (rest : List ItunesEntry) (a b : List Char)
    (hget : httpGet u = .ok resp)
    (hdec : decodeItunes resp.body = .ok { results := entry :: rest })
    (hurl : entry.artworkUrl100.toList = a ++ "100x100".toList ++ b)
    (hfirst : ∀ i, i < a.length →
      List.isPrefixOf "100x100".toList
        ((a ++ "100x100".toList ++ b).drop i) = false)
    (hget2 : httpGet (String.mk (a ++ "600x600".toList ++ b)) = .ok resp2) :
    fetchAlbumArtURL u httpGet decodeItunes =
      (.ok (resp2.body, resp2.contentType),
       [u, String.mk (a ++ "600x600".toList ++ b)]) := by
  have hrepl : stringReplaceOnce entry.artworkUrl100 "100x100" "600x600" =
      String.mk (a ++ "600x600".toList ++ b) := by
    unfold stringReplaceOnce
    rw [hurl, replaceFirstAux_first_occurrence _ _ _ (by decide) a hfirst]
  unfold fetchAlbumArtURL
  dsimp only
  rw [hget]
  dsimp only
  rw [hdec]
  dsimp only
  rw [hrepl, hget2]

/-- A concrete artwork URL pair: the 100x100 thumbnail and its 600x600
variant.  -/
def artwork100 : String := "https://a.mzstatic.com/image/thumb/v4/100x100bb.jpg"

def artwork600 : String := "https://a.mzstatic.com/image/thumb/v4/600x600bb.jpg"

def respArtJson : HttpResp := { body := [2], contentType := "application/json" }

def respImage : HttpResp := { body := [255, 216, 255, 224], contentType := "image/jpeg" }

def getC6 : String → Except String HttpResp :=
  fun s => if s == artwork600 then .ok respImage else .ok respArtJson

def decItunesC6 : List Nat → Except String ItunesResult :=
  fun _ => .ok { results := [{ artworkUrl100 := artwork100 }] }

theorem c6_witness :
    fetchAlbumArtURL "u1" getC6 decItunesC6 =
      (.ok (respImage.body, respImage.contentType), ["u1", artwork600]) := by
  have h := c6_second_request_is_600x600 getC6 decItunesC6 "u1"
    respArtJson respImage { artworkUrl100 := artwork100 } []
    "https://a.mzstatic.com/image/thumb/v4/".toList "bb.jpg".toList
    rfl rfl (by decide) (by decide) rfl
  simpa using h

/-! ### Trace lemmas -/

theorem filter_isSave_map_netRequest (us : List String) :
    (us.map Event.netRequest).filter isSave = [] := by
  induction us with
  | nil => rfl
  | cons u us ih => simp [List.filter_cons, isSave, ih]

theorem downloadLrc_trace (artist title : String)
    (g : String → Except String HttpResp)
    (d : List Nat → Except String (List LrclibResult)) :
    (downloadLrc artist title g d).2 = [lrclibUrl artist title] := by
  unfold downloadLrc
  dsimp only
  split
  · rfl
  · split <;> rfl

theorem imageStep_no_save (args : Args) (env : Env) (t : Tag) :
    ((imageStep args env t).2.filter isSave) = [] := by
  unfold imageStep
  dsimp only
  split
  · rfl
  · split
    · split
      · rfl
      · split <;> exact filter_isSave_map_netRequest _
    · split
      · rfl
      · split <;> rfl

theorem lyricsStep_no_save (args : Args) (env : Env) (t : Tag) :
    ((lyricsStep args env t).2.filter isSave) = [] := by
  unfold lyricsStep
  dsimp only
  split
  · rfl
  · split
    · split
      · exact filter_isSave_map_netRequest _
      · split
        · simp [List.filter_append, filter_isSave_map_netRequest,
            List.filter_cons, isSave]
        · exact filter_isSave_map_netRequest _
    · split
      · rfl
      · split <;> rfl

theorem countSaves_append (l1 l2 : List Event) :
    countSaves (l1 ++ l2) = countSaves l1 + countSaves l2 := by
  simp [countSaves, List.filter_append]

theorem countSaves_imageStep (args : Args) (env : Env) (t : Tag) :
    countSaves (imageStep args env t).2 = 0 := by
  simp [countSaves, imageStep_no_save]

theorem countSaves_lyricsStep (args : Args) (env : Env) (t : Tag) :
    countSaves (lyricsStep args env t).2 = 0 := by
  simp [countSaves, lyricsStep_no_save]

theorem countSaves_ev0 (p : String) (d : Bool) :
    countSaves ([Event.fileOpen p] ++ (if d then [Event.printFrames] else [])) = 0 := by
  cases d <;> rfl

/-! ### Concrete runs used by witnesses -/

def tagSong : Tag :=
  { artist := "A", title := "T", defaultEncoding := .ISO, frames := [] }

/-- An environment where opening the file fails and the network is down. -/
def envIdle : Env :=
  { openTag := .error "open song.mp3: no such file or directory",
    httpGet := getNetDown,
    readFile := fun _ => .error "no such file",
    decodeLrclib := decOkC5,
    decodeItunes := decItunesC6,
    saveResult := .ok (),
    detectContentType := fun _ => "image/jpeg",
    goStr := fun _ => "" }

/-- An environment where every external interaction succeeds. -/
def envAllOk : Env :=
  { openTag := .ok tagSong,
    httpGet := fun _ => .ok respJson,
    readFile := fun _ => .ok [77, 51],
    decodeLrclib := decOkC5,
    decodeItunes := decItunesC6,
    saveResult := .ok (),
    detectContentType := fun _ => "image/png",
    goStr := fun _ => "LYRICS FROM FILE" }

def argsDry : Args :=
  { embedImage := "", embedLyrics := "", embedLang := "jpn",
    dryRun := true, mp3File := "song.mp3" }

def argsReal : Args :=
  { embedImage := "", embedLyrics := "", embedLang := "jpn",
    dryRun := false, mp3File := "song.mp3" }

/-! ### C4: preview never saves; a successful real run saves exactly once -/

/-- C4: for every run, preview (dry-run) mode produces no save event at all,
and every non-preview run whose outcome is a normal exit produces exactly
one save event. -/
theorem c4_preview_never_saves (args : Args) (env : Env) :
    (args.dryRun = true → countSaves (runMain args env).2 = 0) ∧
    (args.dryRun = false → (runMain args env).1 = .ok →
      countSaves (runMain args env).2 = 1) := by
  constructor
  · intro hdry
    unfold runMain
    dsimp only
    simp only [hdry, reduceIte]
    split
    · rfl
    · split
      · rfl
      · split
        · rfl
        · split
          · simp [countSaves, List.filter_append, List.filter_cons, isSave,
              imageStep_no_save, lyricsStep_no_save]
          · split
            · simp [countSaves, List.filter_append, List.filter_cons, isSave,
                imageStep_no_save, lyricsStep_no_save]
            · simp [countSaves, List.filter_append, List.filter_cons, isSave,
                imageStep_no_save, lyricsStep_no_save]
  · intro hdry hok
    unfold runMain at hok ⊢
    dsimp only at hok ⊢
    simp only [hdry, Bool.false_eq_true, if_false] at hok ⊢
    split
    · simp_all
    · split
      · simp_all
      · split
        · simp_all
        · split
          · simp_all
          · split
            · simp_all
            · split
              · simp_all
              · simp_all [countSaves, List.filter_append, List.filter_cons,
                  isSave, imageStep_no_save, lyricsStep_no_save]

theorem c4_witness :
    countSaves (runMain argsDry envIdle).2 = 0 ∧
    countSaves (runMain argsReal envAllOk).2 = 1 :=
  ⟨(c4_preview_never_saves argsDry envIdle).1 rfl,
   (c4_preview_never_saves argsReal envAllOk).2 rfl (by decide)⟩

/-! ### C8: missing positional argument -/

/-- C8: when the positional file argument is missing (empty), the run ends
in the usage-exit outcome (non-zero exit status) and the trace contains no
file-system or network event at all. -/
theorem c8_usage_exit_no_io (args : Args) (env : Env)
    (h : args.mp3File = "") :
    (runMain args env).1 = .usageExit ∧
    (runMain args env).2.filter isIOEvent = [] := by
  unfold runMain
  rw [if_pos (by simp [h])]
  exact ⟨rfl, rfl⟩

def argsNoFile : Args :=
  { embedImage := "auto", embedLyrics := "auto", embedLang := "jpn",
    dryRun := false, mp3File := "" }

theorem c8_witness :
    (runMain argsNoFile envIdle).1 = .usageExit ∧
    (runMain argsNoFile envIdle).2.filter isIOEvent = [] :=
  c8_usage_exit_no_io argsNoFile envIdle rfl

/-! ### C1: the automatic-lyrics fetch is guarded by the image flag -/

def argsImgAutoLyricsFile : Args :=
  { embedImage := "auto", embedLyrics := "local.lrc", embedLang := "jpn",
    dryRun := false, mp3File := "song.mp3" }

def argsImgFileLyricsAuto : Args :=
  { embedImage := "cover.jpg", embedLyrics := "auto", embedLang := "jpn",
    dryRun := false, mp3File := "song.mp3" }

/-- C1 (code-bug evidence): with the image flag "auto" and a lyrics flag
that is a file path (not "auto"), the run nevertheless issues the remote
lyrics request; and with the lyrics flag "auto" and the image flag a file
path, no network request is issued at all and the literal path "auto" is
read as a local lyrics file.  The auto-fetch condition of the lyrics block
is the image flag, not the lyrics flag. -/
theorem c1_lyrics_fetch_guarded_by_image_flag :
    (argsImgAutoLyricsFile.embedLyrics ≠ "auto" ∧
      Event.netRequest (lrclibUrl "A" "T") ∈
        (runMain argsImgAutoLyricsFile envAllOk).2) ∧
    (argsImgFileLyricsAuto.embedLyrics = "auto" ∧
      netRequests (runMain argsImgFileLyricsAuto envAllOk).2 = [] ∧
      Event.fileRead "auto" ∈ (runMain argsImgFileLyricsAuto envAllOk).2) := by
  decide

/-! ### C2: lyrics source "auto" with the network down still saves -/

def argsLyricsAutoOnly : Args :=
  { embedImage := "", embedLyrics := "auto", embedLang := "jpn",
    dryRun := false, mp3File := "song.mp3" }

/-- An environment where the network is entirely unavailable (every request
fails) but the local filesystem works, including a file named "auto". -/
def envNetDownFs : Env :=
  { openTag := .ok tagSong,
    httpGet := getNetDown,
    readFile := fun _ => .ok [91, 48],
    decodeLrclib := decOkC5,
    decodeItunes := decItunesC6,
    saveResult := .ok (),
    detectContentType := fun _ => "image/png",
    goStr := fun _ => "some lyrics" }

/-- C2 (code-bug evidence): the lyrics source is "auto" and every network
request would fail, yet the run issues no network request, never surfaces a
network error, and calls save on the target file (a normal exit with a save
event): the flag value "auto" is read as a local file path because the
image flag is not "auto". -/
theorem c2_auto_lyrics_saved_without_network :
    (runMain argsLyricsAutoOnly envNetDownFs).1 = .ok ∧
    netRequests (runMain argsLyricsAutoOnly envNetDownFs).2 = [] ∧
    Event.save "song.mp3" ∈ (runMain argsLyricsAutoOnly envNetDownFs).2 := by
  decide

/-! ### C10: preview mode still performs the lyrics network request -/

theorem netRequests_append (l1 l2 : List Event) :
    netRequests (l1 ++ l2) = netRequests l1 ++ netRequests l2 := by
  simp [netRequests, List.filterMap_append]

theorem normalizeCommentStep_artist_title (lang : String) (t t2 : Tag)
    (h : normalizeCommentStep lang t = some t2) :
    t2.artist = t.artist ∧ t2.title = t.title := by
  unfold normalizeCommentStep at h
  split at h
  · injection h with h2
    subst h2
    exact ⟨rfl, rfl⟩
  · split at h
    · exact absurd h (by simp)
    · injection h with h2
      subst h2
      exact ⟨rfl, rfl⟩

theorem imageStep_auto_dry (args : Args) (env : Env) (t : Tag)
    (himg : args.embedImage = "auto") (hdry : args.dryRun = true) :
    imageStep args env t =
      (.ok t, [.print ("Covert art: " ++ coverArtUrl t.artist t.title)]) := by
  unfold imageStep
  rw [himg, hdry]
  rfl

theorem lyricsStep_auto_error (args : Args) (env : Env) (t : Tag) (e : FetchErr)
    (hly : args.embedLyrics ≠ "") (himg : args.embedImage = "auto")
    (he : (downloadLrc t.artist t.title env.httpGet env.decodeLrclib).1 = .error e) :
    lyricsStep args env t =
      (.error (.lyricsErr e), [Event.netRequest (lrclibUrl t.artist t.title)]) := by
  have hly2 : (args.embedLyrics == "") = false := by simp [hly]
  unfold lyricsStep
  rw [hly2, himg]
  dsimp only
  rw [he, downloadLrc_trace]
  rfl

theorem lyricsStep_auto_ok_dry (args : Args) (env : Env) (t : Tag) (ly : String)
    (hly : args.embedLyrics ≠ "") (himg : args.embedImage = "auto")
    (hdry : args.dryRun = true)
    (he : (downloadLrc t.artist t.title env.httpGet env.decodeLrclib).1 = .ok ly) :
    lyricsStep args env t =
      (.ok t, [Event.netRequest (lrclibUrl t.artist t.title), Event.print ly]) := by
  have hly2 : (args.embedLyrics == "") = false := by simp [hly]
  unfold lyricsStep
  rw [hly2, himg]
  dsimp only
  rw [he, downloadLrc_trace, hdry]
  rfl

/-- C10: in a dry run (with a file argument and a well-formed comment
frame), when the lyrics flag is non-empty and the image flag is "auto" —
the condition under which the source takes the automatic-lyrics branch —
the remote lyrics request is still issued (the trace's network requests are
exactly the lrclib search URL), and a failing lyrics lookup makes the whole
run fatal even though a dry run would save nothing; by contrast, with the
image flag "auto" and no lyrics flag, the dry run issues no network request
at all and only prints the cover-art search URL. -/
theorem c10_preview_still_fetches_lyrics (args : Args) (env : Env)
    (tag0 tag2 : Tag)
    (hdry : args.dryRun = true)
    (hfile : args.mp3File ≠ "")
    (hopen : env.openTag = .ok tag0)
    (hnorm : normalizeCommentStep args.embedLang
      { tag0 with defaultEncoding := .UTF16 } = some tag2) :
    (args.embedLyrics ≠ "" → args.embedImage = "auto" →
      netRequests (runMain args env).2 = [lrclibUrl tag0.artist tag0.title] ∧
      ∀ e, (downloadLrc tag0.artist tag0.title env.httpGet env.decodeLrclib).1
          = .error e →
        (runMain args env).1 = .fatal (.lyricsErr e)) ∧
    (args.embedImage = "auto" → args.embedLyrics = "" →
      netRequests (runMain args env).2 = [] ∧
      Event.print ("Covert art: " ++ coverArtUrl tag0.artist tag0.title)
        ∈ (runMain args env).2) := by
  have hart : tag2.artist = tag0.artist :=
    (normalizeCommentStep_artist_title args.embedLang _ tag2 hnorm).1
  have htit : tag2.title = tag0.title :=
    (normalizeCommentStep_artist_title args.embedLang _ tag2 hnorm).2
  unfold runMain
  dsimp only
  rw [if_neg (by simp [hfile]), hopen]
  dsimp only
  rw [hnorm]
  dsimp only
  constructor
  · intro hly himg
    rw [imageStep_auto_dry args env tag2 himg hdry]
    dsimp only
    cases hdl : (downloadLrc tag2.artist tag2.title env.httpGet env.decodeLrclib).1 with
    | error e =>
        rw [lyricsStep_auto_error args env tag2 e hly himg hdl]
        dsimp only
        constructor
        · rw [← hart, ← htit]
          simp [hdry, netRequests, List.filterMap_append, List.filterMap_cons]
        · intro e2 he2
          rw [← hart, ← htit] at he2
          rw [hdl] at he2
          injection he2 with h3
          rw [h3]
    | ok ly =>
        rw [lyricsStep_auto_ok_dry args env tag2 ly hly himg hdry hdl]
        dsimp only
        rw [hdry]
        constructor
        · rw [← hart, ← htit]
          simp [netRequests, List.filterMap_append, List.filterMap_cons]
        · intro e2 he2
          rw [← hart, ← htit] at he2
          rw [hdl] at he2
          exact absurd he2 (by simp)
  · intro himg hly0
    rw [imageStep_auto_dry args env tag2 himg hdry]
    dsimp only
    have hlstep : lyricsStep args env tag2 = (.ok tag2, []) := by
      unfold lyricsStep
      rw [hly0]
      rfl
    rw [hlstep]
    dsimp only
    rw [hdry]
    constructor
    · simp [netRequests, List.filterMap_append, List.filterMap_cons]
    · rw [← hart, ← htit]
      simp

def argsPreviewBoth : Args :=
  { embedImage := "auto", embedLyrics := "auto", embedLang := "jpn",
    dryRun := true, mp3File := "song.mp3" }

def argsPreviewImgOnly : Args :=
  { embedImage := "auto", embedLyrics := "", embedLang := "jpn",
    dryRun := true, mp3File := "song.mp3" }

def tagSongN : Tag :=
  { artist := "A", title := "T", defaultEncoding := .UTF16, frames := [] }

theorem c10_witness :
    netRequests (runMain argsPreviewBoth envAllOk).2 = [lrclibUrl "A" "T"] ∧
    (runMain argsPreviewBoth envNetDownFs).1 =
      .fatal (.lyricsErr (.netErr "dial tcp: network is unreachable")) ∧
    netRequests (runMain argsPreviewImgOnly envAllOk).2 = [] := by
  refine ⟨?_, ?_, ?_⟩
  · exact ((c10_preview_still_fetches_lyrics argsPreviewBoth envAllOk tagSong
      tagSongN rfl (by decide) rfl rfl).1 (by decide) rfl).1
  · exact ((c10_preview_still_fetches_lyrics argsPreviewBoth envNetDownFs tagSong
      tagSongN rfl (by decide) rfl rfl).1 (by decide) rfl).2
      (.netErr "dial tcp: network is unreachable") rfl
  · exact ((c10_preview_still_fetches_lyrics argsPreviewImgOnly envAllOk tagSong
      tagSongN rfl (by decide) rfl rfl).2 rfl rfl).1

end Mp3extra
